import Mathlib

/-!
Verification of the learning-path platform core (Django REST application).

The definitions below are a shallow embedding of the repository's data model
and request handlers:

* relational rows become structures whose fields mirror the Django model
  fields (src/courses/models.py, src/learning_paths/models.py);
* a table becomes a List of rows;
* timestamps are natural numbers, with None encoded as Option.none;
* a request handler becomes a function returning Except ApiErr, where the
  error constructor records the HTTP status class the view responds with;
* Python binary64 float arithmetic, where it matters (calculate_progress),
  is modelled exactly by rationals rounded to 53 significant bits with
  round-half-to-even.
-/

/-- Error outcomes a view can produce.  unauthorized is the 401 produced by
rest_framework.permissions.IsAuthenticated; bad_request is HTTP 400;
not_found is HTTP 404; forbidden is HTTP 403; invalid_field is the unhandled
django.core.exceptions.FieldError raised by QuerySet.get_or_create when a
defaults key names no model field (an HTTP 500). -/
inductive ApiErr where
  | unauthorized
  | bad_request
  | not_found
  | forbidden
  | invalid_field
deriving DecidableEq, Repr

/-- Course row, restricted to the fields the claims touch
(src/courses/models.py, class Course). -/
structure Course where
  id : Nat
  creator : Nat
  is_public : Bool
  status : String
  rating : Option ℚ
  total_ratings : Nat
deriving DecidableEq, Repr

/-- LearningPath row, restricted to the fields the claims touch
(src/learning_paths/models.py, class LearningPath). -/
structure LearningPath where
  id : Nat
  creator : Nat
  is_public : Bool
  status : String
deriving DecidableEq, Repr

/-- LearningPathCourse through-table row for one learning path
(src/learning_paths/models.py, class LearningPathCourse). -/
structure LearningPathCourse where
  course : Nat
  order : Nat
  is_required : Bool
  notes : String
deriving DecidableEq, Repr

/-- UserCourseProgress row (src/courses/models.py, class UserCourseProgress). -/
structure UserCourseProgress where
  user : Nat
  course : Nat
  started_at : Nat
  completed_at : Option Nat
  progress_percentage : Nat
  time_spent_hours : ℚ
  notes : String
deriving DecidableEq, Repr

/-- UserLearningProgress row (src/learning_paths/models.py, class
UserLearningProgress, lines 135-190).  The model declares no
progress_percentage field: its persisted state is exactly user,
learning_path, started_at, completed_at, current_course and notes. -/
structure UserLearningProgress where
  user : Nat
  learning_path : Nat
  started_at : Nat
  completed_at : Option Nat
  current_course : Option Nat
  notes : String
deriving DecidableEq, Repr

/-- CourseReview row (src/courses/models.py, class CourseReview). -/
structure CourseReview where
  id : Nat
  course : Nat
  user : Nat
  rating : Nat
  review_text : String
deriving DecidableEq, Repr

/-- Round a rational to the nearest integer, ties to even: the rounding mode
of IEEE-754 binary64 arithmetic and of Python's built-in round. -/
def roundHalfEven (x : ℚ) : ℤ :=
  let n : ℤ := ⌊x⌋
  let r : ℚ := x - n
  if r < 1/2 then n
  else if 1/2 < r then n + 1
  else if n % 2 = 0 then n else n + 1

/-- The IEEE-754 binary64 double nearest to a rational, as an exact rational:
53 significant bits, round half to even.  Exponents are unbounded, which
agrees with binary64 on every magnitude arising in this development (all
values lie well inside the normal range); nonpositive inputs, which never
arise here, are mapped to 0. -/
def float64 (q : ℚ) : ℚ :=
  if q ≤ 0 then 0
  else
    let e : ℤ := Int.log 2 q
    let sig : ℤ := roundHalfEven (q * 2 ^ (52 - e))
    (sig : ℚ) * 2 ^ (e - 52)

/-- UserLearningProgress.calculate_progress (src/learning_paths/models.py,
lines 177-190).  required_courses is the path's LearningPathCourse set
filtered on is_required=True; completed_courses counts this user's
UserCourseProgress rows whose course is one of the required courses and
whose completed_at is non-null.  Python evaluates
int((completed_courses / required_courses.count()) * 100): a binary64
division, then a binary64 multiplication by 100, then truncation toward
zero; both roundings are modelled by float64. -/
def calculate_progress (path_courses : List LearningPathCourse)
    (self : UserLearningProgress) (db : List UserCourseProgress) : Nat :=
  let required_courses := path_courses.filter (fun pc => pc.is_required)
  if required_courses.isEmpty then
    if self.completed_at.isSome then 100 else 0
  else
    let completed_courses :=
      (db.filter (fun p => p.user == self.user
        && (required_courses.map (fun pc => pc.course)).contains p.course
        && p.completed_at.isSome)).length
    (⌊float64 (float64 ((completed_courses : ℚ) / (required_courses.length : ℚ)) * 100)⌋).toNat

/-- Python round(x, 2): round half to even at two decimal digits.  This is the
rounding Python's built-in round performs; on the exact rational mean of
integer ratings it coincides with the binary64 computation except on ties that
binary64 cannot represent exactly, and both the view code and the spec name
the same operation round(mean, 2). -/
def pyRound2 (x : ℚ) : ℚ := (roundHalfEven (x * 100) : ℚ) / 100

/-- The state the review endpoints touch: the course row carrying the
aggregates and the review table. -/
structure ReviewState where
  course : Course
  reviews : List CourseReview
deriving Repr

/-- The aggregate recomputation shared by CourseReviewViewSet.perform_create,
perform_update and perform_destroy (src/courses/views.py 208-254): the average
of the ratings of the course's current reviews (Avg returns None when no rows
remain), then course.rating = round(avg_rating, 2) if avg_rating else None and
course.total_ratings = count.  Python truthiness makes both None and a zero
average fall to None, which the embedding keeps. -/
def update_course_rating (course : Course) (reviews : List CourseReview) : Course :=
  let course_reviews := reviews.filter (fun rv => rv.course == course.id)
  let avg_rating : Option ℚ :=
    if course_reviews.isEmpty then none
    else some ((course_reviews.map (fun rv => (rv.rating : ℚ))).sum / (course_reviews.length : ℚ))
  { course with
    rating :=
      match avg_rating with
      | none => none
      | some a => if a = 0 then none else some (pyRound2 a)
    total_ratings := course_reviews.length }

namespace CourseReviewViewSet

/-- CourseReviewViewSet.perform_create (src/courses/views.py 208-222): persist
the new review, then recompute the course aggregates over the post-write
review set. -/
def perform_create (st : ReviewState) (review : CourseReview) : ReviewState :=
  let reviews := st.reviews ++ [review]
  { course := update_course_rating st.course reviews, reviews := reviews }

/-- CourseReviewViewSet.perform_update (src/courses/views.py 224-238): persist
the rating change, then recompute the course aggregates over the post-write
review set. -/
def perform_update (st : ReviewState) (review_id new_rating : Nat) : ReviewState :=
  let reviews := st.reviews.map (fun rv =>
    if rv.id == review_id then { rv with rating := new_rating } else rv)
  { course := update_course_rating st.course reviews, reviews := reviews }

/-- CourseReviewViewSet.perform_destroy (src/courses/views.py 240-254): delete
the review first, then recompute the course aggregates over the remaining
reviews. -/
def perform_destroy (st : ReviewState) (review_id : Nat) : ReviewState :=
  let reviews := st.reviews.filter (fun rv => rv.id != review_id)
  { course := update_course_rating st.course reviews, reviews := reviews }

end CourseReviewViewSet

/-- One review mutation, as dispatched to the perform hooks above. -/
inductive ReviewOp where
  | create (review : CourseReview)
  | update (review_id new_rating : Nat)
  | destroy (review_id : Nat)

/-- Dispatch of a single review mutation to its hook. -/
def apply_review_op (st : ReviewState) : ReviewOp → ReviewState
  | .create rv => CourseReviewViewSet.perform_create st rv
  | .update rid r => CourseReviewViewSet.perform_update st rid r
  | .destroy rid => CourseReviewViewSet.perform_destroy st rid

/-- The ratings of the course's current reviews in a state. -/
def current_ratings (st : ReviewState) : List Nat :=
  (st.reviews.filter (fun rv => rv.course == st.course.id)).map (fun rv => rv.rating)

/-- Modelled from the spec sentence it checks the code against: the Rating
Aggregator formula, round(mean(current ratings), 2) or null when no reviews
remain. -/
def spec_rating (ratings : List Nat) : Option ℚ :=
  if ratings.isEmpty then none
  else some (pyRound2 (((ratings.map (fun (r : Nat) => (r : ℚ))).sum) / (ratings.length : ℚ)))

/-- The field names Django knows for UserCourseProgress
(src/courses/models.py 231-261, plus the implicit primary key): what
QuerySet.get_or_create validates defaults keys against. -/
def user_course_progress_field_names : List String :=
  ["id", "user", "course", "started_at", "completed_at", "progress_percentage",
   "time_spent_hours", "notes"]

/-- The field names Django knows for UserLearningProgress
(src/learning_paths/models.py 135-167, plus the implicit primary key).  The
model declares no progress_percentage field. -/
def user_learning_progress_field_names : List String :=
  ["id", "user", "learning_path", "started_at", "completed_at", "current_course",
   "notes"]

/-- The defaults keys start_course passes to get_or_create
(src/courses/views.py 126-130). -/
def start_course_defaults : List String := ["progress_percentage"]

/-- The defaults keys start_learning passes to get_or_create
(src/learning_paths/views.py 79-83). -/
def start_learning_defaults : List String := ["progress_percentage"]

namespace CourseViewSet

/-- CourseViewSet.get_queryset (src/courses/views.py 57-71): anonymous
requesters get the public published filter, authenticated requesters get
public published entities or their own. -/
def get_queryset (request_user : Option Nat) (db : List Course) : List Course :=
  match request_user with
  | none => db.filter (fun c => c.is_public && c.status == "published")
  | some u => db.filter (fun c => (c.is_public && c.status == "published") || c.creator == u)

/-- The course list/read endpoint.  permission_classes on CourseViewSet
(src/courses/views.py 35) put permissions.IsAuthenticated first, and DRF
checks permissions before the queryset is ever evaluated: an anonymous
request is answered 401 and get_queryset's anonymous branch is unreachable
through the API. -/
def list_courses (request_user : Option Nat) (db : List Course) :
    Except ApiErr (List Course) :=
  match request_user with
  | none => .error .unauthorized
  | some u => .ok (get_queryset (some u) db)

/-- CourseViewSet.start_course (src/courses/views.py 118-139):
get_or_create(user, course, defaults=dict(progress_percentage=0)).  Django's
get_or_create returns the existing row when the lookup hits (the view then
answers 400); on a miss it validates every defaults key against the model's
fields, raising FieldError when one names no field, and otherwise creates the
row. -/
def start_course (request_user course : Nat) (db : List UserCourseProgress)
    (now : Nat) : Except ApiErr (UserCourseProgress × List UserCourseProgress) :=
  match db.find? (fun p => p.user == request_user && p.course == course) with
  | some _ => .error .bad_request
  | none =>
    if (start_course_defaults.all (fun k => user_course_progress_field_names.contains k)) then
      let progress : UserCourseProgress :=
        { user := request_user, course := course, started_at := now,
          completed_at := none, progress_percentage := 0, time_spent_hours := 0, notes := "" }
      .ok (progress, db ++ [progress])
    else .error .invalid_field

end CourseViewSet

namespace LearningPathViewSet

/-- LearningPathViewSet.get_queryset (src/learning_paths/views.py 39-53):
anonymous requesters get the public published filter, authenticated
requesters get public published paths or their own. -/
def get_queryset (request_user : Option Nat) (db : List LearningPath) :
    List LearningPath :=
  match request_user with
  | none => db.filter (fun lp => lp.is_public && lp.status == "published")
  | some u => db.filter (fun lp => (lp.is_public && lp.status == "published") || lp.creator == u)

/-- The learning-path list/read endpoint.  permission_classes on
LearningPathViewSet (src/learning_paths/views.py 22) put
permissions.IsAuthenticated first, so anonymous requests are answered 401
before get_queryset runs. -/
def list_paths (request_user : Option Nat) (db : List LearningPath) :
    Except ApiErr (List LearningPath) :=
  match request_user with
  | none => .error .unauthorized
  | some u => .ok (get_queryset (some u) db)

/-- LearningPathViewSet.start_learning (src/learning_paths/views.py 71-92):
get_or_create(user, learning_path, defaults=dict(progress_percentage=0)).
When the row exists Django returns it and the view answers 400.  On a miss
Django validates the defaults keys against UserLearningProgress's fields,
which do not include progress_percentage, so the creation path raises
FieldError instead of creating the row. -/
def start_learning (request_user learning_path : Nat)
    (db : List UserLearningProgress) (now : Nat) :
    Except ApiErr (UserLearningProgress × List UserLearningProgress) :=
  match db.find? (fun p => p.user == request_user && p.learning_path == learning_path) with
  | some _ => .error .bad_request
  | none =>
    if (start_learning_defaults.all (fun k => user_learning_progress_field_names.contains k)) then
      let progress : UserLearningProgress :=
        { user := request_user, learning_path := learning_path, started_at := now,
          completed_at := none, current_course := none, notes := "" }
      .ok (progress, db ++ [progress])
    else .error .invalid_field

/-- LearningPathViewSet.add_course (src/learning_paths/views.py 114-168):
non-owners get 403; the guard on line 133 is Python truthiness,
if not course_id, so both a missing course_id and the falsy id 0 get 400
with the message that course_id is required; a nonzero course_id naming no
Course row gets 404 and attaches nothing; a course already in the path gets
400; otherwise the through row is created with order defaulting to
total_courses + 1. -/
def add_course (learning_path : LearningPath) (request_user : Nat)
    (course_id : Option Nat) (order : Option Nat) (is_required : Bool) (notes : String)
    (courses_db : List Course) (path_courses : List LearningPathCourse) :
    Except ApiErr (List LearningPathCourse) :=
  if learning_path.creator != request_user then .error .forbidden
  else
    match course_id with
    | none => .error .bad_request
    | some cid =>
      if cid == 0 then .error .bad_request
      else if (courses_db.map (fun c => c.id)).contains cid then
        if path_courses.any (fun pc => pc.course == cid) then .error .bad_request
        else .ok (path_courses ++
          [{ course := cid, order := order.getD (path_courses.length + 1),
             is_required := is_required, notes := notes }])
      else .error .not_found

end LearningPathViewSet

namespace LearningPathCreateUpdateSerializer

/-- The course-attachment loop of LearningPathCreateUpdateSerializer.create
(src/learning_paths/serializers.py 78-98): for i, course_id in
enumerate(course_ids, 1), fetch the Course and create the through row with
order=i, silently skipping any id with no Course row (except
Course.DoesNotExist: continue); the created rows carry the model defaults
is_required=True and empty notes.  The update method (lines 100-123) replaces
the associations with the same loop. -/
def create_path_courses (course_ids : List Nat) (courses_db : List Course) :
    List LearningPathCourse :=
  (course_ids.enumFrom 1).filterMap (fun p =>
    if (courses_db.map (fun c => c.id)).contains p.2 then
      some { course := p.2, order := p.1, is_required := true, notes := "" }
    else none)

end LearningPathCreateUpdateSerializer

namespace UserCourseProgressViewSet

/-- UserCourseProgressViewSet.mark_completed (src/courses/views.py 280-299):
400 when completed_at is already set, leaving the row untouched; otherwise
completed_at becomes the current time and progress_percentage is forced to
100 whatever it was. -/
def mark_completed (progress : UserCourseProgress) (now : Nat) :
    Except ApiErr UserCourseProgress :=
  if progress.completed_at.isSome then .error .bad_request
  else .ok { progress with completed_at := some now, progress_percentage := 100 }

/-- UserCourseProgressViewSet.update_progress (src/courses/views.py 301-340).
Each request field is optional; a progress_percentage outside [0,100] or a
negative time_spent_hours answers 400 before anything is saved, so an error
leaves the stored row exactly as it was.  A progress_percentage of exactly
100 also sets completed_at to the current time. -/
def update_progress (progress : UserCourseProgress) (progress_percentage : Option Int)
    (time_spent_hours : Option ℚ) (notes : Option String) (now : Nat) :
    Except ApiErr UserCourseProgress := do
  let progress ← match progress_percentage with
    | none => pure progress
    | some pp =>
      if 0 ≤ pp ∧ pp ≤ 100 then
        let progress := { progress with progress_percentage := pp.toNat }
        pure (if pp == 100 then { progress with completed_at := some now } else progress)
      else throw ApiErr.bad_request
  let progress ← match time_spent_hours with
    | none => pure progress
    | some t =>
      if 0 ≤ t then pure { progress with time_spent_hours := t }
      else throw ApiErr.bad_request
  let progress := match notes with
    | none => progress
    | some n => { progress with notes := n }
  pure progress

end UserCourseProgressViewSet

namespace UserLearningProgressViewSet

/-- UserLearningProgressViewSet.mark_completed (src/learning_paths/views.py
230-249): 400 when completed_at is already set, leaving the row untouched;
otherwise completed_at becomes the current time.  The statement
progress.progress_percentage = 100 assigns a plain Python attribute:
UserLearningProgress declares no progress_percentage field, so save()
persists nothing for it and the stored row gains only completed_at. -/
def mark_completed (progress : UserLearningProgress) (now : Nat) :
    Except ApiErr UserLearningProgress :=
  if progress.completed_at.isSome then .error .bad_request
  else .ok { progress with completed_at := some now }

/-- UserLearningProgressViewSet.update_progress (src/learning_paths/views.py
251-292).  A progress_percentage outside [0,100] answers 400 with the row
untouched; a value of exactly 100 sets completed_at to the current time; the
in-range percentage assignment itself targets the non-field attribute and
persists nothing.  current_course_id naming no Course row answers 404. -/
def update_progress (progress : UserLearningProgress) (progress_percentage : Option Int)
    (current_course_id : Option Nat) (notes : Option String)
    (courses_db : List Course) (now : Nat) :
    Except ApiErr UserLearningProgress := do
  let progress ← match progress_percentage with
    | none => pure progress
    | some pp =>
      if 0 ≤ pp ∧ pp ≤ 100 then
        pure (if pp == 100 then { progress with completed_at := some now } else progress)
      else throw ApiErr.bad_request
  let progress ← match current_course_id with
    | none => pure progress
    | some cid =>
      if (courses_db.map (fun c => c.id)).contains cid then
        pure { progress with current_course := some cid }
      else throw ApiErr.not_found
  let progress := match notes with
    | none => progress
    | some n => { progress with notes := n }
  pure progress

end UserLearningProgressViewSet

/-- UserLearningProgressSerializer.get_progress
(src/learning_paths/serializers.py 126-145): progress is a
SerializerMethodField returning obj.calculate_progress(), recomputed on every
serialization; the serializer exposes no stored percentage because the model
has none. -/
def get_progress (path_courses : List LearningPathCourse)
    (obj : UserLearningProgress) (db : List UserCourseProgress) : Nat :=
  calculate_progress path_courses obj db

/-- A learning path with 50 required courses, the failing input for the
progress formula. -/
def c1_path_courses : List LearningPathCourse :=
  (List.range 50).map (fun i =>
    { course := i + 1, order := i + 1, is_required := true, notes := "" })

/-- The progress record of user 1 on that path, not yet marked completed. -/
def c1_record : UserLearningProgress :=
  { user := 1, learning_path := 1, started_at := 0, completed_at := none,
    current_course := none, notes := "" }

/-- User 1 holds completed UserCourseProgress rows for 29 of the 50 required
courses. -/
def c1_rows : List UserCourseProgress :=
  (List.range 29).map (fun i =>
    { user := 1, course := i + 1, started_at := 0, completed_at := some 3,
      progress_percentage := 100, time_spent_hours := 0, notes := "" })

/-- A public published course, for the visibility counterexample. -/
def c3_course : Course :=
  { id := 1, creator := 2, is_public := true, status := "published",
    rating := none, total_ratings := 0 }

/-- A public published learning path, for the visibility counterexample. -/
def c3_path : LearningPath :=
  { id := 1, creator := 2, is_public := true, status := "published" }

/-- A learning path with a single required course, for the mark_completed
counterexample. -/
def c5_path_courses : List LearningPathCourse :=
  [{ course := 1, order := 1, is_required := true, notes := "" }]

/-- An uncompleted learning-path progress record of user 1. -/
def c5_record : UserLearningProgress :=
  { user := 1, learning_path := 1, started_at := 0, completed_at := none,
    current_course := none, notes := "" }

/-- The course progress row start_course creates for user 1 on course 1. -/
def c7_course_row : UserCourseProgress :=
  { user := 1, course := 1, started_at := 0, completed_at := none,
    progress_percentage := 0, time_spent_hours := 0, notes := "" }

/-- An existing learning-path progress row of user 1 on path 1. -/
def c7_path_row : UserLearningProgress :=
  { user := 1, learning_path := 1, started_at := 0, completed_at := none,
    current_course := none, notes := "" }

/-- Course 1 with three reviews rated 3, 4 and 5, the spec's rating scenario. -/
def c2_state : ReviewState :=
  { course := { id := 1, creator := 2, is_public := true, status := "published",
                rating := some 4, total_ratings := 3 },
    reviews := [ { id := 1, course := 1, user := 10, rating := 3, review_text := "" },
                 { id := 2, course := 1, user := 11, rating := 4, review_text := "" },
                 { id := 3, course := 1, user := 12, rating := 5, review_text := "" } ] }

/-- The only existing course, id 5, for the bulk-assignment witness. -/
def c9_course : Course :=
  { id := 5, creator := 2, is_public := true, status := "published",
    rating := none, total_ratings := 0 }

/-- A learning path owned by user 1, for the add_course witness. -/
def c9_path : LearningPath :=
  { id := 1, creator := 1, is_public := true, status := "published" }

/-- An uncompleted path progress record of user 1. -/
def c8_r : UserLearningProgress :=
  { user := 1, learning_path := 1, started_at := 0, completed_at := none,
    current_course := none, notes := "first" }

/-- A record agreeing with c8_r on user and completed_at but nothing else. -/
def c8_s : UserLearningProgress :=
  { user := 1, learning_path := 2, started_at := 4, completed_at := none,
    current_course := some 3, notes := "second" }

/-- The binary exponent of q is e whenever 2^e ≤ q < 2^(e+1). -/
theorem int_log_two_eq (q : ℚ) (e : ℤ) (h0 : 0 < q)
    (hl : (2 : ℚ) ^ e ≤ q) (hu : q < (2 : ℚ) ^ (e + 1)) : Int.log 2 q = e := by
  have hb : (1 : ℕ) < 2 := one_lt_two
  have hcast : ((2 : ℕ) : ℚ) = (2 : ℚ) := by norm_num
  have h1 : e ≤ Int.log 2 q := by
    rw [← Int.zpow_le_iff_le_log hb h0, hcast]
    exact hl
  have h2 : Int.log 2 q < e + 1 := by
    rw [← Int.lt_zpow_iff_log_lt hb h0, hcast]
    exact hu
  omega

/-- float64 at a positive rational whose binary exponent is e: round the
scaled significand half to even and rescale. -/
theorem float64_of_exp (q : ℚ) (e : ℤ) (h0 : 0 < q)
    (hl : (2 : ℚ) ^ e ≤ q) (hu : q < (2 : ℚ) ^ (e + 1)) :
    float64 q = (roundHalfEven (q * 2 ^ (52 - e)) : ℚ) * 2 ^ (e - 52) := by
  simp only [float64]
  rw [if_neg (not_le.mpr h0), int_log_two_eq q e h0 hl hu]

/-- roundHalfEven rounds down when the fractional part is below one half. -/
theorem roundHalfEven_eq_of_lt_half (x : ℚ) (n : ℤ)
    (h1 : (n : ℚ) ≤ x) (h2 : x < (n : ℚ) + 1 / 2) :
    roundHalfEven x = n := by
  have hfl : ⌊x⌋ = n := by
    rw [Int.floor_eq_iff]
    constructor
    · exact h1
    · linarith
  simp only [roundHalfEven]
  rw [hfl, if_pos (by linarith)]

/-- The binary64 quotient 29 / 50: one unit below the rational 29/50 at the
53rd significant bit. -/
theorem c1_float_div_eval :
    float64 (((29 : ℕ) : ℚ) / ((50 : ℕ) : ℚ)) = 5224175567749775 / 9007199254740992 := by
  have hq : ((29 : ℕ) : ℚ) / ((50 : ℕ) : ℚ) = 29 / 50 := by norm_num
  rw [hq, float64_of_exp (29 / 50) (-1) (by norm_num) (by norm_num) (by norm_num),
    roundHalfEven_eq_of_lt_half _ 5224175567749775 (by norm_num) (by norm_num)]
  norm_num

/-- Multiplying that double by 100 in binary64 lands strictly below 58. -/
theorem c1_float_mul_eval :
    float64 ((5224175567749775 / 9007199254740992 : ℚ) * 100)
      = 8162774324609023 / 140737488355328 := by
  rw [float64_of_exp _ 5 (by norm_num) (by norm_num) (by norm_num),
    roundHalfEven_eq_of_lt_half _ 8162774324609023 (by norm_num) (by norm_num)]
  norm_num

/-- C1: the claim that calculate_progress returns floor(100*C/N) fails on the
code.  With N = 50 required courses and C = 29 of them completed,
int((29 / 50) * 100) evaluates the division and the multiplication in binary64
and truncates 57.999999999999992895... to 57, while floor(100*29/50) = 58: the
code under-reports the progress by one point. -/
theorem c1_float_truncation :
    calculate_progress c1_path_courses c1_record c1_rows = 57 ∧ 100 * 29 / 50 = 58 := by
  constructor
  · have hmid : calculate_progress c1_path_courses c1_record c1_rows
        = (⌊float64 (float64 (((29 : ℕ) : ℚ) / ((50 : ℕ) : ℚ)) * 100)⌋).toNat := rfl
    rw [hmid, c1_float_div_eval, c1_float_mul_eval]
    rw [show ⌊(8162774324609023 / 140737488355328 : ℚ)⌋ = 57 from by
      rw [Int.floor_eq_iff]
      constructor <;> norm_num]
    rfl
  · norm_num

/-- C4: when a path has no required LearningPathCourse entries,
calculate_progress is binary on completed_at and ignores every
UserCourseProgress row the user holds, including rows for the path's
optional courses. -/
theorem c4_zero_required (path_courses : List LearningPathCourse)
    (self : UserLearningProgress) (db : List UserCourseProgress)
    (h : path_courses.filter (fun pc => pc.is_required) = []) :
    calculate_progress path_courses self db
      = if self.completed_at.isSome then 100 else 0 := by
  simp [calculate_progress, h]

/-- Witness for C4: a path with only an optional course, whose course the
user even completed, still reads 0 while the record is uncompleted. -/
theorem c4_zero_required_witness :
    calculate_progress [{ course := 1, order := 1, is_required := false, notes := "" }]
      { user := 1, learning_path := 1, started_at := 0, completed_at := none,
        current_course := none, notes := "" }
      [{ user := 1, course := 1, started_at := 0, completed_at := some 2,
         progress_percentage := 100, time_spent_hours := 0, notes := "" }] = 0 := by
  have h := c4_zero_required
    [{ course := 1, order := 1, is_required := false, notes := "" }]
    { user := 1, learning_path := 1, started_at := 0, completed_at := none,
      current_course := none, notes := "" }
    [{ user := 1, course := 1, started_at := 0, completed_at := some 2,
       progress_percentage := 100, time_spent_hours := 0, notes := "" }]
    (by rfl)
  rw [h]
  rfl

/-- C3 fails as stated: an anonymous list/read request never receives the
public published entities, because permissions.IsAuthenticated rejects it
with 401 before the queryset filter runs. -/
theorem c3_anonymous_unauthorized :
    CourseViewSet.list_courses none [c3_course] = Except.error ApiErr.unauthorized ∧
    LearningPathViewSet.list_paths none [c3_path] = Except.error ApiErr.unauthorized ∧
    c3_course.is_public = true ∧ c3_course.status = "published" ∧
    c3_path.is_public = true ∧ c3_path.status = "published" :=
  ⟨rfl, rfl, rfl, rfl, rfl, rfl⟩

/-- C3 amended: anonymous requesters are answered 401 and receive no
entities (the anonymous public-published branch of get_queryset is
unreachable through the API); an authenticated requester receives exactly
the public published entities together with their own, regardless of the
latters' flags. -/
theorem c3_visibility_amended (u : Nat) (db : List Course) (pdb : List LearningPath) :
    CourseViewSet.list_courses none db = Except.error ApiErr.unauthorized ∧
    LearningPathViewSet.list_paths none pdb = Except.error ApiErr.unauthorized ∧
    CourseViewSet.list_courses (some u) db
      = Except.ok (CourseViewSet.get_queryset (some u) db) ∧
    LearningPathViewSet.list_paths (some u) pdb
      = Except.ok (LearningPathViewSet.get_queryset (some u) pdb) ∧
    (∀ c : Course, c ∈ CourseViewSet.get_queryset (some u) db ↔
      c ∈ db ∧ ((c.is_public = true ∧ c.status = "published") ∨ c.creator = u)) ∧
    (∀ lp : LearningPath, lp ∈ LearningPathViewSet.get_queryset (some u) pdb ↔
      lp ∈ pdb ∧ ((lp.is_public = true ∧ lp.status = "published") ∨ lp.creator = u)) := by
  refine ⟨rfl, rfl, rfl, rfl, ?_, ?_⟩
  · intro c
    simp [CourseViewSet.get_queryset, List.mem_filter]
  · intro lp
    simp [LearningPathViewSet.get_queryset, List.mem_filter]

/-- C5 fails as stated for learning-path progress records: mark_completed
succeeds and sets completed_at, but the record's percentage — for a path the
derived progress, since the model stores none — is not forced to 100: with
one required course left uncompleted the reported progress is still 0. -/
theorem c5_path_percentage_not_forced :
    UserLearningProgressViewSet.mark_completed c5_record 7
      = Except.ok { c5_record with completed_at := some 7 } ∧
    get_progress c5_path_courses { c5_record with completed_at := some 7 } [] = 0 := by
  constructor
  · rfl
  · have hmid : get_progress c5_path_courses { c5_record with completed_at := some 7 } []
        = (⌊float64 (float64 (((0 : ℕ) : ℚ) / ((1 : ℕ) : ℚ)) * 100)⌋).toNat := rfl
    rw [hmid]
    norm_num [float64]

/-- C5 amended: mark_completed sets completed_at to the current time; for
course progress records it also forces the stored progress_percentage to 100
regardless of its prior value, while for learning-path progress records only
completed_at changes because the model stores no percentage; when
completed_at is already non-null the call answers 400 and the record is left
unchanged. -/
theorem c5_mark_completed_amended (p : UserCourseProgress)
    (r : UserLearningProgress) (now : Nat) :
    (p.completed_at = none →
      UserCourseProgressViewSet.mark_completed p now
        = Except.ok { p with completed_at := some now, progress_percentage := 100 }) ∧
    (p.completed_at ≠ none →
      UserCourseProgressViewSet.mark_completed p now = Except.error ApiErr.bad_request) ∧
    (r.completed_at = none →
      UserLearningProgressViewSet.mark_completed r now
        = Except.ok { r with completed_at := some now }) ∧
    (r.completed_at ≠ none →
      UserLearningProgressViewSet.mark_completed r now = Except.error ApiErr.bad_request) := by
  refine ⟨fun h => ?_, fun h => ?_, fun h => ?_, fun h => ?_⟩
  · simp [UserCourseProgressViewSet.mark_completed, h]
  · obtain ⟨t, ht⟩ := Option.ne_none_iff_exists'.mp h
    simp [UserCourseProgressViewSet.mark_completed, ht]
  · simp [UserLearningProgressViewSet.mark_completed, h]
  · obtain ⟨t, ht⟩ := Option.ne_none_iff_exists'.mp h
    simp [UserLearningProgressViewSet.mark_completed, ht]

/-- Witness for the amended C5: a first call completes a 40% course row and
forces its percentage to 100; a second call on an already-completed path row
answers 400. -/
theorem c5_mark_completed_amended_witness :
    UserCourseProgressViewSet.mark_completed
        { user := 1, course := 1, started_at := 0, completed_at := none,
          progress_percentage := 40, time_spent_hours := 0, notes := "" } 9
      = Except.ok
          { user := 1, course := 1, started_at := 0, completed_at := some 9,
            progress_percentage := 100, time_spent_hours := 0, notes := "" } ∧
    UserLearningProgressViewSet.mark_completed
        { user := 1, learning_path := 1, started_at := 0, completed_at := some 5,
          current_course := none, notes := "" } 9
      = Except.error ApiErr.bad_request := by
  constructor
  · exact (c5_mark_completed_amended
      { user := 1, course := 1, started_at := 0, completed_at := none,
        progress_percentage := 40, time_spent_hours := 0, notes := "" }
      { user := 1, learning_path := 1, started_at := 0, completed_at := some 5,
        current_course := none, notes := "" } 9).1 rfl
  · exact (c5_mark_completed_amended
      { user := 1, course := 1, started_at := 0, completed_at := none,
        progress_percentage := 40, time_spent_hours := 0, notes := "" }
      { user := 1, learning_path := 1, started_at := 0, completed_at := some 5,
        current_course := none, notes := "" } 9).2.2.2 (by simp)

/-- C7: the code cannot start a learning path.  On a fresh (user, path) pair
get_or_create misses, and Django validates the defaults keys against
UserLearningProgress's fields: progress_percentage names no field, so the
call raises FieldError (an unhandled 500) and creates no record, where the
claim requires a created progress record.  The course-side start behaves as
claimed: a first start creates the row, a repeated start answers 400 and
leaves the table unchanged. -/
theorem c7_start_learning_field_error :
    LearningPathViewSet.start_learning 1 1 [] 0 = Except.error ApiErr.invalid_field ∧
    LearningPathViewSet.start_learning 1 1 [c7_path_row] 5 = Except.error ApiErr.bad_request ∧
    CourseViewSet.start_course 1 1 [] 0 = Except.ok (c7_course_row, [c7_course_row]) ∧
    CourseViewSet.start_course 1 1 [c7_course_row] 5 = Except.error ApiErr.bad_request :=
  ⟨rfl, rfl, rfl, rfl⟩

/-- C6: an update_progress call carrying a progress_percentage outside [0,100]
is answered 400 — the value is never clamped — and nothing is saved: the
operation returns no updated record, so the stored row keeps every prior
value.  This holds for the course and the learning-path endpoint alike,
whatever else the request carries. -/
theorem c6_out_of_range_rejected (p : UserCourseProgress) (r : UserLearningProgress)
    (pp : Int) (ts : Option ℚ) (cc : Option Nat) (nts : Option String)
    (cdb : List Course) (now : Nat) (h : pp < 0 ∨ 100 < pp) :
    UserCourseProgressViewSet.update_progress p (some pp) ts nts now
      = Except.error ApiErr.bad_request ∧
    UserLearningProgressViewSet.update_progress r (some pp) cc nts cdb now
      = Except.error ApiErr.bad_request := by
  have hcond : ¬(0 ≤ pp ∧ pp ≤ 100) := by omega
  constructor
  · simp [UserCourseProgressViewSet.update_progress, hcond, throw, throwThe,
      MonadExceptOf.throw, Bind.bind, Except.bind, Functor.map, Except.map]
  · simp [UserLearningProgressViewSet.update_progress, hcond, throw, throwThe,
      MonadExceptOf.throw, Bind.bind, Except.bind, Functor.map, Except.map]

/-- Witness for C6: progress_percentage = 150 is rejected on both endpoints. -/
theorem c6_out_of_range_rejected_witness :
    UserCourseProgressViewSet.update_progress
        { user := 1, course := 1, started_at := 0, completed_at := none,
          progress_percentage := 20, time_spent_hours := 0, notes := "" }
        (some 150) none none 4
      = Except.error ApiErr.bad_request ∧
    UserLearningProgressViewSet.update_progress
        { user := 1, learning_path := 1, started_at := 0, completed_at := none,
          current_course := none, notes := "" }
        (some 150) none none [] 4
      = Except.error ApiErr.bad_request :=
  c6_out_of_range_rejected
    { user := 1, course := 1, started_at := 0, completed_at := none,
      progress_percentage := 20, time_spent_hours := 0, notes := "" }
    { user := 1, learning_path := 1, started_at := 0, completed_at := none,
      current_course := none, notes := "" }
    150 none none none [] 4 (Or.inr (by norm_num))

/-- C10: on an uncompleted record, update_progress with progress_percentage
exactly 100 also sets completed_at to the current time (the record becomes
completed), on both the course and the learning-path endpoint; any in-range
value strictly below 100 leaves completed_at null (and, on the path
endpoint, leaves the stored record entirely unchanged, its percentage being
a non-persisted attribute). -/
theorem c10_full_percentage_completes (p : UserCourseProgress)
    (r : UserLearningProgress) (now : Nat) (pp : Int)
    (hp : p.completed_at = none) (h0 : 0 ≤ pp) (h1 : pp < 100) :
    UserCourseProgressViewSet.update_progress p (some 100) none none now
      = Except.ok { p with progress_percentage := 100, completed_at := some now } ∧
    UserLearningProgressViewSet.update_progress r (some 100) none none [] now
      = Except.ok { r with completed_at := some now } ∧
    UserCourseProgressViewSet.update_progress p (some pp) none none now
      = Except.ok { p with progress_percentage := pp.toNat } ∧
    ({ p with progress_percentage := pp.toNat } : UserCourseProgress).completed_at = none ∧
    UserLearningProgressViewSet.update_progress r (some pp) none none [] now
      = Except.ok r := by
  have hne : (pp == 100) = false := by
    simp only [beq_eq_false_iff_ne, ne_eq]
    omega
  have h100 : pp ≤ 100 := by omega
  refine ⟨?_, ?_, ?_, ?_, ?_⟩
  · simp [UserCourseProgressViewSet.update_progress, pure, Except.pure, Bind.bind, Except.bind]
  · simp [UserLearningProgressViewSet.update_progress, pure, Except.pure, Bind.bind, Except.bind]
  · simp [UserCourseProgressViewSet.update_progress, hne, h0, h100, pure, Except.pure,
      Bind.bind, Except.bind]
  · simp [hp]
  · simp [UserLearningProgressViewSet.update_progress, hne, h0, h100, pure, Except.pure,
      Bind.bind, Except.bind]

/-- Witness for C10 at progress_percentage 55: below 100 nothing completes;
at 100 completed_at is set. -/
theorem c10_full_percentage_completes_witness :
    UserCourseProgressViewSet.update_progress
        { user := 1, course := 1, started_at := 0, completed_at := none,
          progress_percentage := 20, time_spent_hours := 0, notes := "" }
        (some 100) none none 4
      = Except.ok
          { user := 1, course := 1, started_at := 0, completed_at := some 4,
            progress_percentage := 100, time_spent_hours := 0, notes := "" } ∧
    UserCourseProgressViewSet.update_progress
        { user := 1, course := 1, started_at := 0, completed_at := none,
          progress_percentage := 20, time_spent_hours := 0, notes := "" }
        (some 55) none none 4
      = Except.ok
          { user := 1, course := 1, started_at := 0, completed_at := none,
            progress_percentage := 55, time_spent_hours := 0, notes := "" } := by
  have h := c10_full_percentage_completes
    { user := 1, course := 1, started_at := 0, completed_at := none,
      progress_percentage := 20, time_spent_hours := 0, notes := "" }
    { user := 1, learning_path := 1, started_at := 0, completed_at := none,
      current_course := none, notes := "" }
    4 55 rfl (by norm_num) (by norm_num)
  exact ⟨h.1, h.2.2.1⟩

/-- The attachment loop keeps exactly the ids that name an existing course,
in order, whatever the membership test and start index. -/
theorem create_aux (g : Nat → Bool) :
    ∀ (ids : List Nat) (n : Nat),
      ((ids.enumFrom n).filterMap (fun p =>
        if g p.2 then
          some ({ course := p.2, order := p.1, is_required := true, notes := "" } : LearningPathCourse)
        else none)).map (fun pc => pc.course)
      = ids.filter (fun i => g i)
  | [], _ => rfl
  | a :: l, n => by
    cases hg : g a
    · simpa [List.enumFrom, List.filterMap_cons, List.filter_cons, hg]
        using create_aux g l (n + 1)
    · simpa [List.enumFrom, List.filterMap_cons, List.filter_cons, hg]
        using create_aux g l (n + 1)

/-- The bulk-assignment loop attaches exactly the course_ids with an
existing Course row. -/
theorem create_path_courses_courses (ids : List Nat) (cdb : List Course) :
    (LearningPathCreateUpdateSerializer.create_path_courses ids cdb).map (fun pc => pc.course)
      = ids.filter (fun i => (cdb.map (fun c => c.id)).contains i) :=
  create_aux (fun i => (cdb.map (fun (c : Course) => c.id)).contains i) ids 1

/-- C9 fails as stated at the falsy id 0: no Course row has id 0, yet
add_course called with course_id = 0 is answered 400 by the truthiness guard
if not course_id — never the claimed 404. -/
theorem c9_zero_course_id_bad_request :
    (([c9_course] : List Course).map (fun c => c.id)).contains 0 = false ∧
    LearningPathViewSet.add_course c9_path 1 (some 0) none true "" [c9_course] []
      = Except.error ApiErr.bad_request ∧
    LearningPathViewSet.add_course c9_path 1 (some 0) none true "" [c9_course] []
      ≠ Except.error ApiErr.not_found :=
  ⟨rfl, rfl, fun h => ApiErr.noConfusion (Except.error.inj h)⟩

/-- C9 amended: bulk course assignment at path create/update silently skips
ids with no Course row — the attached courses are exactly the existing ids,
in order, and the operation still succeeds (it is total) — while the
dedicated add_course endpoint answers 404 for a nonexistent nonzero id and
attaches nothing; the equally nonexistent id 0 is instead caught by the
truthiness guard and answered 400 as a missing course_id. -/
theorem c9_bulk_skip_vs_add_course_404 (ids : List Nat) (cdb : List Course)
    (lp : LearningPath) (u : Nat) (pcs : List LearningPathCourse)
    (cid : Nat) (ord : Option Nat) (req : Bool) (nts : String)
    (hown : lp.creator = u) (hzero : cid ≠ 0)
    (hmiss : ((cdb.map (fun c => c.id)).contains cid) = false) :
    (LearningPathCreateUpdateSerializer.create_path_courses ids cdb).map (fun pc => pc.course)
      = ids.filter (fun i => (cdb.map (fun c => c.id)).contains i) ∧
    LearningPathViewSet.add_course lp u (some cid) ord req nts cdb pcs
      = Except.error ApiErr.not_found := by
  constructor
  · exact create_path_courses_courses ids cdb
  · have hmiss2 : ¬∃ x ∈ cdb, x.id = cid := by simpa using hmiss
    simp [LearningPathViewSet.add_course, hown, hzero, hmiss2]

/-- Witness for the amended C9: with only course 5 existing, creating a path
with course_ids [5, 9] attaches just course 5, and add_course with the
nonzero missing id 9 answers 404. -/
theorem c9_bulk_skip_vs_add_course_404_witness :
    (LearningPathCreateUpdateSerializer.create_path_courses [5, 9] [c9_course]).map
        (fun pc => pc.course)
      = [5, 9].filter (fun i => (([c9_course] : List Course).map (fun c => c.id)).contains i) ∧
    LearningPathViewSet.add_course c9_path 1 (some 9) none true "" [c9_course] []
      = Except.error ApiErr.not_found :=
  c9_bulk_skip_vs_add_course_404 [5, 9] [c9_course] c9_path 1 [] 9 none true "" rfl
    (by decide) rfl

/-- C8: a learning path's percentage is never persisted on the progress
record: the model stores none, the serializer's progress output is
calculate_progress recomputed on each read, a read depends on nothing in the
record beyond the user identity and completed_at, and after a mark_completed
write the next read still recomputes from whatever UserCourseProgress rows
are current at that moment. -/
theorem c8_progress_recomputed_every_read (pcs : List LearningPathCourse)
    (r s : UserLearningProgress) (db : List UserCourseProgress) (now : Nat)
    (huser : s.user = r.user) (hca : s.completed_at = r.completed_at) :
    get_progress pcs r db = calculate_progress pcs r db ∧
    get_progress pcs s db = get_progress pcs r db ∧
    (∀ r2, UserLearningProgressViewSet.mark_completed r now = Except.ok r2 →
      ∀ db2, get_progress pcs r2 db2
        = calculate_progress pcs { r with completed_at := some now } db2) := by
  refine ⟨rfl, ?_, ?_⟩
  · simp only [get_progress, calculate_progress, huser, hca]
  · intro r2 h db2
    by_cases hc : r.completed_at.isSome
    · simp [UserLearningProgressViewSet.mark_completed, hc] at h
    · simp [UserLearningProgressViewSet.mark_completed, hc] at h
      rw [← h]
      rfl

/-- Witness for C8: two records sharing user and completed_at report the same
progress, and after mark_completed the read recomputes against the current
course rows. -/
theorem c8_progress_recomputed_every_read_witness :
    get_progress [] c8_r [] = calculate_progress [] c8_r [] ∧
    get_progress [] c8_s [] = get_progress [] c8_r [] ∧
    (∀ r2, UserLearningProgressViewSet.mark_completed c8_r 3 = Except.ok r2 →
      ∀ db2, get_progress [] r2 db2
        = calculate_progress [] { c8_r with completed_at := some 3 } db2) :=
  c8_progress_recomputed_every_read [] c8_r c8_s [] 3 rfl rfl

/-- The recomputed aggregates equal the spec formulas whenever every stored
rating is at least 1 (the model validator's lower bound, which keeps the
average nonzero so Python's truthiness test coincides with the None test). -/
theorem update_course_rating_spec (course : Course) (reviews : List CourseReview)
    (h : ∀ rv ∈ reviews, 1 ≤ rv.rating) :
    (update_course_rating course reviews).rating
      = spec_rating ((reviews.filter (fun rv => rv.course == course.id)).map
          (fun rv => rv.rating)) ∧
    (update_course_rating course reviews).total_ratings
      = (reviews.filter (fun rv => rv.course == course.id)).length := by
  refine ⟨?_, rfl⟩
  cases hcrs : reviews.filter (fun rv => rv.course == course.id) with
  | nil => simp [update_course_rating, spec_rating, hcrs]
  | cons a t =>
    have ha : 1 ≤ a.rating := by
      have hmem : a ∈ reviews.filter (fun rv => rv.course == course.id) := by
        rw [hcrs]
        exact List.mem_cons_self a t
      exact h a (List.mem_of_mem_filter hmem)
    have haq : (1 : ℚ) ≤ (a.rating : ℚ) := by exact_mod_cast ha
    have htq : (0 : ℚ) ≤ (t.map (fun rv => (rv.rating : ℚ))).sum := by
      apply List.sum_nonneg
      intro x hx
      obtain ⟨rv, hrv, hrx⟩ := List.mem_map.mp hx
      rw [← hrx]
      exact Nat.cast_nonneg rv.rating
    have hnum : (a.rating : ℚ) + (t.map (fun rv => (rv.rating : ℚ))).sum ≠ 0 := by
      intro hq
      linarith
    have hden : ((t.length : ℚ)) + 1 ≠ 0 := by
      intro hq
      have h0 : (0 : ℚ) ≤ (t.length : ℚ) := Nat.cast_nonneg t.length
      linarith
    have hcond : ¬(((a.rating : ℚ) + (t.map (fun rv => (rv.rating : ℚ))).sum)
        / ((t.length : ℚ) + 1) = 0) := div_ne_zero hnum hden
    simp only [update_course_rating, spec_rating, hcrs, List.map_cons, List.isEmpty_cons,
      Bool.false_eq_true, if_false, List.sum_cons, List.length_cons, List.length_map,
      List.map_map, Nat.cast_add, Nat.cast_one]
    rw [if_neg hcond]
    rfl

/-- C2: after any single review create, update or delete — each modelled
exactly as its perform hook writes the review table and then recomputes —
the course's rating equals round(mean of the current ratings, 2), or null
when no reviews remain, and total_ratings equals the current review count.
The state returned by each operation already satisfies the invariant, so
there is no window in which the persisted aggregates are stale.  The
hypotheses record the model validators: every rating, stored or incoming,
is at least 1. -/
theorem c2_rating_aggregator (st : ReviewState) (op : ReviewOp)
    (hst : ∀ rv ∈ st.reviews, 1 ≤ rv.rating)
    (hop : match op with
      | .create rv => 1 ≤ rv.rating
      | .update _ new_rating => 1 ≤ new_rating
      | .destroy _ => True) :
    (apply_review_op st op).course.rating
      = spec_rating (current_ratings (apply_review_op st op)) ∧
    (apply_review_op st op).course.total_ratings
      = ((apply_review_op st op).reviews.filter
          (fun rv => rv.course == (apply_review_op st op).course.id)).length := by
  cases op with
  | create rv =>
    have hall : ∀ x ∈ st.reviews ++ [rv], 1 ≤ x.rating := by
      intro x hx
      rcases List.mem_append.mp hx with hx | hx
      · exact hst x hx
      · rw [List.mem_singleton.mp hx]
        exact hop
    exact update_course_rating_spec st.course (st.reviews ++ [rv]) hall
  | update rid new_rating =>
    have hall : ∀ x ∈ st.reviews.map (fun rv =>
        if rv.id == rid then { rv with rating := new_rating } else rv), 1 ≤ x.rating := by
      intro x hx
      obtain ⟨rv, hrv, hrx⟩ := List.mem_map.mp hx
      by_cases hid : (rv.id == rid) = true
      · rw [← hrx, if_pos hid]
        exact hop
      · rw [← hrx, if_neg hid]
        exact hst rv hrv
    exact update_course_rating_spec st.course _ hall
  | destroy rid =>
    have hall : ∀ x ∈ st.reviews.filter (fun rv => rv.id != rid), 1 ≤ x.rating := by
      intro x hx
      exact hst x (List.mem_of_mem_filter hx)
    exact update_course_rating_spec st.course _ hall

/-- Witness for C2 at the spec's scenario: reviews [3,4,5], deleting the
rating-5 review, the invariant holds on the resulting state. -/
theorem c2_rating_aggregator_witness :
    (apply_review_op c2_state (ReviewOp.destroy 3)).course.rating
      = spec_rating (current_ratings (apply_review_op c2_state (ReviewOp.destroy 3))) ∧
    (apply_review_op c2_state (ReviewOp.destroy 3)).course.total_ratings
      = ((apply_review_op c2_state (ReviewOp.destroy 3)).reviews.filter
          (fun rv => rv.course
            == (apply_review_op c2_state (ReviewOp.destroy 3)).course.id)).length :=
  c2_rating_aggregator c2_state (ReviewOp.destroy 3) (by decide) trivial
